import Mathlib

/-
Verification of src/psycopg3/errors.py: the DBAPI exception hierarchy, the
SQLSTATE classifier `class_for_state` and the factory `error_from_result`.
The module is embedded shallowly: Python classes become an enumerated type
with an explicit superclass chain, exception instances become records, and
the two functions are translated directly from their bodies.
-/

namespace Psycopg3

/-- The Python classes declared in src/psycopg3/errors.py, together with the
builtin `Exception` they ultimately derive from.  The hierarchy (module
docstring, lines 4-16) is: `Warning` and `Error` derive from `Exception`;
`InterfaceError` and `DatabaseError` derive from `Error`; the six specific
database categories derive from `DatabaseError`. -/
inductive PyClass where
  | Exception
  | Warning
  | Error
  | InterfaceError
  | DatabaseError
  | DataError
  | OperationalError
  | IntegrityError
  | InternalError
  | ProgrammingError
  | NotSupportedError
  deriving DecidableEq, Repr

/-- The direct base class of each class, read off the `class X(Y):` headers
of the source (single inheritance throughout; `Exception` is the builtin
root, so it has no superclass here). -/
def superclass : PyClass → Option PyClass
  | PyClass.Exception => none
  | PyClass.Warning => some PyClass.Exception
  | PyClass.Error => some PyClass.Exception
  | PyClass.InterfaceError => some PyClass.Error
  | PyClass.DatabaseError => some PyClass.Error
  | PyClass.DataError => some PyClass.DatabaseError
  | PyClass.OperationalError => some PyClass.DatabaseError
  | PyClass.IntegrityError => some PyClass.DatabaseError
  | PyClass.InternalError => some PyClass.DatabaseError
  | PyClass.ProgrammingError => some PyClass.DatabaseError
  | PyClass.NotSupportedError => some PyClass.DatabaseError

/-- The superclass chain starting at `c`, cut off by fuel (the hierarchy has
depth at most four, so fuel 4 captures every full chain). -/
def superChain : Nat → PyClass → List PyClass
  | 0, c => [c]
  | n + 1, c =>
      c :: (match superclass c with
            | none => []
            | some p => superChain n p)

/-- Method resolution order of a class: itself followed by its superclass
chain (single inheritance). -/
def mro (c : PyClass) : List PyClass := superChain 4 c

/-- Python `issubclass c d` for these classes: `d` occurs in the superclass
chain of `c` (reflexive and transitive). -/
def isSubclassOf (c d : PyClass) : Bool := decide (d ∈ mro c)

/-- The diagnostic fields a PGresult can be queried for through
`error_field` (the source uses `pq.DiagnosticField.SQLSTATE`). -/
inductive DiagnosticField where
  | SQLSTATE
  | MESSAGE_PRIMARY
  | SEVERITY
  | DETAIL
  | HINT
  deriving DecidableEq, Repr

/-- The read-only diagnostic record extracted from a failed result: a
SQLSTATE code when the server reported one, the primary message, and
optional structured extras.  Mirrors the `PGresult` diagnostic payload the
source consumes (`result.error_field`, `pq.error_message`). -/
structure PGresult where
  sqlstate : Option String
  message : String
  severity : Option String
  detail : Option String
  hint : Option String
  deriving DecidableEq, Repr

/-- Field access `result.error_field(f)`: returns the requested diagnostic
field, `none` when the record lacks it. -/
def PGresult.error_field (r : PGresult) : DiagnosticField → Option String
  | DiagnosticField.SQLSTATE => r.sqlstate
  | DiagnosticField.MESSAGE_PRIMARY => some r.message
  | DiagnosticField.SEVERITY => r.severity
  | DiagnosticField.DETAIL => r.detail
  | DiagnosticField.HINT => r.hint

/-- Modelled from the spec: `pq.error_message` is defined in the `pq`
module of the repository, outside the provided source file.  Per the spec
(sections 4.2 and 7) the display text it yields is the diagnostic record's
primary message, verbatim and unaugmented. -/
def error_message (result : PGresult) : String := result.message

/-- An exception instance: its concrete class, the positional arguments
passed to the constructor (the display text), and the `pgresult` attribute
set by `Error` and its subclasses (`none` both for the default and for
classes outside the `Error` branch, which never set the attribute). -/
structure PyError where
  cls : PyClass
  args : List String
  pgresult : Option PGresult
  deriving DecidableEq, Repr

/-- Embedding of `Error.__init__` (src/psycopg3/errors.py lines 40-44):
forwards `*args` to `super().__init__` unchanged and stores the `pgresult`
keyword argument on the instance unchanged.  `cls` is the concrete class
being constructed: every subclass of `Error` inherits this initializer. -/
def Error.constructErr (cls : PyClass) (args : List String)
    (pgresult : Option PGresult) : PyError :=
  { cls := cls, args := args, pgresult := pgresult }

/-- Constructing an `Error` subclass without the `pgresult` keyword: the
parameter declaration `pgresult: Optional[PGresult] = None` makes the
attribute default to `None`. -/
def Error.constructErrDefault (cls : PyClass) (args : List String) : PyError :=
  Error.constructErr cls args none

/-- In the source, the `pgresult` attribute is set exactly by
`Error.__init__`, which runs for `Error` and every subclass of it;
`Warning` inherits `Exception.__init__`, which accepts no such keyword and
sets no such attribute. -/
def acceptsPgresult (c : PyClass) : Bool := isSubclassOf c PyClass.Error

/-- Embedding of `class_for_state` (src/psycopg3/errors.py lines 110-112).
The body is literally `# TODO: stub` / `return DatabaseError`: the sqlstate
argument is ignored and `DatabaseError` is returned for every input,
including the absent (`None`) case. -/
def class_for_state (_sqlstate : Option String) : PyClass :=
  PyClass.DatabaseError

/-- Embedding of `error_from_result` (src/psycopg3/errors.py lines 115-119):
classify the result's SQLSTATE diagnostic field, then construct that class
with `pq.error_message(result)` as the only positional argument.  The
`pgresult` keyword is not passed, so it takes its default. -/
def error_from_result (result : PGresult) : PyError :=
  Error.constructErrDefault
    (class_for_state (result.error_field DiagnosticField.SQLSTATE))
    [error_message result]

/-- The closed taxonomy of categories of the spec (section 3): the eight
specific categories plus the generic `DatabaseError` and `Error`. -/
def categories : List PyClass :=
  [PyClass.Warning, PyClass.InterfaceError, PyClass.DataError,
   PyClass.OperationalError, PyClass.IntegrityError, PyClass.InternalError,
   PyClass.ProgrammingError, PyClass.NotSupportedError,
   PyClass.DatabaseError, PyClass.Error]

/-- A concrete failed result: a unique-violation diagnostic with SQLSTATE
23505 and a primary message. -/
def uniqueViolationResult : PGresult :=
  { sqlstate := some "23505"
    message := "duplicate key value violates unique constraint"
    severity := some "ERROR"
    detail := none
    hint := none }

/-- A concrete diagnostic record with no SQLSTATE code at all, as produced
by a client-side failure with no server round trip. -/
def absentCodeResult : PGresult :=
  { sqlstate := none
    message := "connection pool exhausted"
    severity := none
    detail := none
    hint := none }

/-- C1: the claim says the error built by `error_from_result` carries the
result as its `pgresult` attribute.  The code does not: it constructs
`cls(pq.error_message(result))` without passing `pgresult=result`, so at
this concrete diagnostic the attribute is `None`, not the result. -/
theorem c1_pgresult_dropped :
    (error_from_result uniqueViolationResult).pgresult = none ∧
    (error_from_result uniqueViolationResult).pgresult ≠
      some uniqueViolationResult := by
  exact ⟨rfl, by decide⟩

/-- C2: the claim says exact-match entries take precedence and in
particular code 23505 classifies to `IntegrityError`.  The code has no
exact-match table: `class_for_state` is a stub returning `DatabaseError`
for 23505 as for everything else. -/
theorem c2_stub_23505 :
    class_for_state (some "23505") = PyClass.DatabaseError ∧
    class_for_state (some "23505") ≠ PyClass.IntegrityError := by
  exact ⟨rfl, by decide⟩

/-- C3: the claim says a code with no exact entry classifies by its class
prefix (22 to `DataError`, 23 to `IntegrityError`, 42 to
`ProgrammingError`, 08 to `OperationalError`, 0A to `NotSupportedError`,
40 to `OperationalError`).  The code has no class table either: the stub
returns `DatabaseError` for representative codes of every one of those
classes. -/
theorem c3_stub_no_class_fallback :
    class_for_state (some "42601") = PyClass.DatabaseError ∧
    class_for_state (some "42601") ≠ PyClass.ProgrammingError ∧
    class_for_state (some "22012") ≠ PyClass.DataError ∧
    class_for_state (some "23001") ≠ PyClass.IntegrityError ∧
    class_for_state (some "08006") ≠ PyClass.OperationalError ∧
    class_for_state (some "0A000") ≠ PyClass.NotSupportedError ∧
    class_for_state (some "40001") ≠ PyClass.OperationalError := by
  refine ⟨rfl, ?_, ?_, ?_, ?_, ?_, ?_⟩ <;> decide

/-- C4: the claim says every code of class 01 classifies to `Warning`, in
particular 01004.  The stub returns `DatabaseError` for 01004 (note also
that the declared return type `Type[Error]` could never be `Warning`,
which is not an `Error` subclass). -/
theorem c4_stub_01004_not_warning :
    class_for_state (some "01004") = PyClass.DatabaseError ∧
    class_for_state (some "01004") ≠ PyClass.Warning := by
  exact ⟨rfl, by decide⟩

/-- C5: the claim says an absent SQLSTATE classifies to `InterfaceError`
and the built error is an `InterfaceError` whose display text is the
record's message.  On the code, the stub classifies the absent case to
`DatabaseError`, so the built error has class `DatabaseError`; only the
display-text half of the claim holds. -/
theorem c5_absent_code_not_interface :
    class_for_state none = PyClass.DatabaseError ∧
    (error_from_result absentCodeResult).cls = PyClass.DatabaseError ∧
    (error_from_result absentCodeResult).cls ≠ PyClass.InterfaceError ∧
    (error_from_result absentCodeResult).args =
      ["connection pool exhausted"] := by
  exact ⟨rfl, rfl, by decide, rfl⟩

/-- C6: a code with neither an exact-match entry nor a class-prefix entry
classifies to `DatabaseError`.  The source defines no lookup tables at all
and `class_for_state` returns `DatabaseError` for every code, so in
particular for every code without an entry and for the concrete code
99XYZ. -/
theorem c6_unknown_code_database_error :
    (∀ c : String, class_for_state (some c) = PyClass.DatabaseError) ∧
    class_for_state (some "99XYZ") = PyClass.DatabaseError :=
  ⟨fun _ => rfl, rfl⟩

/-- C7: the display text of the error built by `error_from_result` is the
diagnostic's primary message verbatim, as the sole exception argument,
never altered or augmented with the other diagnostic fields
(`error_message` is the primary message per the spec, and the factory
passes it through unchanged). -/
theorem c7_display_text_verbatim :
    ∀ r : PGresult,
      (error_from_result r).args = [error_message r] ∧
      error_message r = r.message :=
  fun _ => ⟨rfl, rfl⟩

/-- C8: classification is total: for every code (hence in particular every
5-character code over digits and A-Z) and for the absent case,
`class_for_state` returns exactly one category of the taxonomy; the
embedded function is total just as the Python body, which has no failure
path. -/
theorem c8_classification_total :
    ∀ s : Option String,
      class_for_state s ∈ categories ∧
      ∃! k : PyClass, class_for_state s = k :=
  fun s =>
    ⟨show PyClass.DatabaseError ∈ categories by decide,
     class_for_state s, rfl, fun _ h => h.symm⟩

/-- C9: `Error.__init__` stores the positional arguments unchanged as the
exception's arguments and the `pgresult` keyword unchanged as the
`pgresult` attribute, for `Error` and every subclass; omitting the keyword
yields the default `None`. -/
theorem c9_error_init_stores_unchanged :
    ∀ (cls : PyClass) (args : List String) (p : Option PGresult),
      (Error.constructErr cls args p).args = args ∧
      (Error.constructErr cls args p).pgresult = p ∧
      (Error.constructErr cls args p).cls = cls ∧
      Error.constructErrDefault cls args = Error.constructErr cls args none :=
  fun _ _ _ => ⟨rfl, rfl, rfl, rfl⟩

/-- C10: `Warning` is a direct subclass of `Exception`, not a subclass of
`Error`, and accepts no `pgresult`; `InterfaceError` subclasses `Error`
directly; the six specific database categories subclass `Error` via
`DatabaseError`; all of them accept and carry a `pgresult`. -/
theorem c10_hierarchy :
    superclass PyClass.Warning = some PyClass.Exception ∧
    isSubclassOf PyClass.Warning PyClass.Error = false ∧
    acceptsPgresult PyClass.Warning = false ∧
    superclass PyClass.InterfaceError = some PyClass.Error ∧
    acceptsPgresult PyClass.InterfaceError = true ∧
    superclass PyClass.DataError = some PyClass.DatabaseError ∧
    superclass PyClass.OperationalError = some PyClass.DatabaseError ∧
    superclass PyClass.IntegrityError = some PyClass.DatabaseError ∧
    superclass PyClass.InternalError = some PyClass.DatabaseError ∧
    superclass PyClass.ProgrammingError = some PyClass.DatabaseError ∧
    superclass PyClass.NotSupportedError = some PyClass.DatabaseError ∧
    isSubclassOf PyClass.DatabaseError PyClass.Error = true ∧
    isSubclassOf PyClass.DataError PyClass.Error = true ∧
    isSubclassOf PyClass.OperationalError PyClass.Error = true ∧
    isSubclassOf PyClass.IntegrityError PyClass.Error = true ∧
    isSubclassOf PyClass.InternalError PyClass.Error = true ∧
    isSubclassOf PyClass.ProgrammingError PyClass.Error = true ∧
    isSubclassOf PyClass.NotSupportedError PyClass.Error = true ∧
    acceptsPgresult PyClass.DataError = true ∧
    acceptsPgresult PyClass.OperationalError = true ∧
    acceptsPgresult PyClass.IntegrityError = true ∧
    acceptsPgresult PyClass.InternalError = true ∧
    acceptsPgresult PyClass.ProgrammingError = true ∧
    acceptsPgresult PyClass.NotSupportedError = true := by
  decide

end Psycopg3
